import Mathlib

/-!
Shallow embedding of the version-control / rollback engine of the
MySQL MCP server (src/index.js).  JavaScript values, rows and the
string-heuristic SQL classifier are modelled directly from the source;
the external SQL executor is an oracle mapping each execute-call index
to either a result or a raised error, and every function that issues
SQL returns the ordered list of issued statements alongside its result.
-/

/-- Scalar value as returned by the MySQL driver / stored in a row image. -/
inductive Value where
  | vNull : Value
  | vInt (n : Int) : Value
  | vStr (s : String) : Value
  | vBool (b : Bool) : Value
deriving Repr, DecidableEq

/-- JavaScript truthiness of a scalar value. -/
def jsTruthy : Value → Bool
  | .vNull => false
  | .vInt n => n ≠ 0
  | .vStr s => s ≠ ""
  | .vBool b => b

/-- JavaScript String(v) rendering of a scalar value. -/
def jsString : Value → String
  | .vNull => "null"
  | .vInt n => toString n
  | .vStr s => s
  | .vBool b => if b then "true" else "false"

/-- A row image: ordered association list of column name to value
(JS object with insertion-ordered keys). -/
abbrev Row := List (String × Value)

/-- One SQL statement issued against the executor, with bound parameters
(`connection.execute(sql, params)`). -/
structure Stmt where
  sql : String
  params : List Value
deriving Repr, DecidableEq

/-- Result of one executor call: a row set (SELECT-like) or a result
packet with affected-row count and insert id (DML). `insertId !== undefined`
holds exactly for the `result` form. -/
inductive ExecResult where
  | rows (rs : List Row) : ExecResult
  | result (affectedRows : Nat) (insertId : Nat) : ExecResult
deriving Repr, DecidableEq

/-- Infix (substring) test on character lists; models JS `String.includes`. -/
def listHasInfix (p : List Char) : List Char → Bool
  | [] => p.isEmpty
  | c :: cs => List.isPrefixOf p (c :: cs) || listHasInfix p cs

/-- Models JS `s.includes(p)` (exact substring containment). -/
def strContains (s p : String) : Bool := listHasInfix p.toList s.toList

/-- Models JS `s.startsWith(p)`. -/
def strStarts (s p : String) : Bool := List.isPrefixOf p.toList s.toList

/-- Character class of the JS regex `\s` (whitespace), restricted to the
ASCII whitespace that can occur in SQL text; also the class used by
`String.prototype.trim`. -/
def isWsChar (c : Char) : Bool :=
  c = ' ' || c = '\t' || c = '\n' || c = '\r' || c = '\x0b' || c = '\x0c'

/-- Models JS `s.trim()`. -/
def jsTrim (s : String) : String :=
  String.mk (((s.toList.dropWhile isWsChar).reverse.dropWhile isWsChar).reverse)

/-- Models JS `s.toUpperCase()` on ASCII SQL text. -/
def jsToUpper (s : String) : String := String.mk (s.toList.map Char.toUpper)

/-- Models JS `s.toLowerCase()` on ASCII SQL text. -/
def jsToLower (s : String) : String := String.mk (s.toList.map Char.toLower)

/-- Permission flags read from the environment (`this.permissions`). -/
structure Permissions where
  allowInsert : Bool
  allowUpdate : Bool
  allowDelete : Bool
deriving Repr, DecidableEq

/-- Source `checkQueryPermissions(query)`: sequential substring checks on the
trimmed, upper-cased query; the first violated category throws. -/
def checkQueryPermissions (perms : Permissions) (query : String) : Except String Unit :=
  let n := jsToUpper (jsTrim query)
  if (strStarts n "DELETE" || strContains n "DROP TABLE" ||
      strContains n "DROP DATABASE" || strContains n "TRUNCATE") && !perms.allowDelete then
    .error "DELETE operations are not allowed. Set ALLOW_DELETE_OPERATION=true to enable."
  else if (strStarts n "UPDATE" || strContains n "ALTER TABLE" ||
      strContains n "MODIFY COLUMN" || strContains n "ADD COLUMN" ||
      strContains n "DROP COLUMN") && !perms.allowUpdate then
    .error "UPDATE operations are not allowed. Set ALLOW_UPDATE_OPERATION=true to enable."
  else if (strStarts n "INSERT" || strContains n "CREATE TABLE" ||
      strContains n "CREATE DATABASE" || strContains n "CREATE INDEX") && !perms.allowInsert then
    .error "INSERT operations are not allowed. Set ALLOW_INSERT_OPERATION=true to enable."
  else .ok ()

/-- Source `handleQuery` write-path classification (the if/else chain that
assigns `operationType`): first match wins, result is a kind tag or null. -/
def classifyOperation (query : String) : Option String :=
  let n := jsToUpper (jsTrim query)
  if strStarts n "DELETE" || strContains n "TRUNCATE" then some "DELETE"
  else if strStarts n "UPDATE" then some "UPDATE"
  else if strStarts n "INSERT" then some "INSERT"
  else if strContains n "DROP TABLE" then some "DROP_TABLE"
  else none

/-- Case-insensitive literal match: if `p` (lower-case) is a prefix of `cs`
up to case, return the remainder. -/
def ciStrip (p : List Char) (cs : List Char) : Option (List Char) :=
  match p, cs with
  | [], rest => some rest
  | _ :: _, [] => none
  | a :: ps, c :: rest => if c.toLower = a.toLower then ciStrip ps rest else none

/-- Matches `\s+` then continues: one mandatory whitespace char followed by a
greedy run (the char after the run is a letter in every use, so maximal
munch is exact). -/
def skipWs1 (cs : List Char) : Option (List Char) :=
  match cs with
  | c :: rest => if isWsChar c then some (rest.dropWhile isWsChar) else none
  | [] => none

/-- Does `cs` start with `\s+ORDER\s+BY` (case-insensitive)? -/
def altOrderBy (cs : List Char) : Bool :=
  match skipWs1 cs with
  | some cs1 =>
    match ciStrip "order".toList cs1 with
    | some cs2 =>
      match skipWs1 cs2 with
      | some cs3 => (ciStrip "by".toList cs3).isSome
      | none => false
    | none => false
  | none => false

/-- Does `cs` start with `\s+LIMIT` (case-insensitive)? -/
def altLimit (cs : List Char) : Bool :=
  match skipWs1 cs with
  | some cs1 => (ciStrip "limit".toList cs1).isSome
  | none => false

/-- Does `cs` match `\s*$` (only whitespace to the end of the string)? -/
def altEnd (cs : List Char) : Bool := cs.all isWsChar

/-- Lazy expansion of the capture group `(.+?)`: the accumulated capture is
non-empty; the terminator alternation is tried before each further char is
consumed, in the source order `ORDER BY` / `LIMIT` / end-of-string.  `.`
does not match a newline. -/
def lazyCapture (acc : List Char) : List Char → Option (List Char)
  | [] =>
    if altOrderBy [] || altLimit [] || altEnd [] then some acc.reverse else none
  | c :: cs =>
    if altOrderBy (c :: cs) || altLimit (c :: cs) || altEnd (c :: cs) then some acc.reverse
    else if c = '\n' then none
    else lazyCapture (c :: acc) cs

/-- Starts the capture group `(.+?)`: it must consume at least one
(non-newline) character. -/
def startCapture : List Char → Option (List Char)
  | [] => none
  | c :: cs => if c = '\n' then none else lazyCapture [c] cs

/-- Backtracking over the greedy `\s+` before the capture: try consuming
`k` whitespace characters, largest first, down to one. -/
def tryWsDescend (cs : List Char) : Nat → Option (List Char)
  | 0 => none
  | Nat.succ k =>
    match startCapture (cs.drop (Nat.succ k)) with
    | some cap => some cap
    | none => tryWsDescend cs k

/-- Leftmost search for `WHERE\s+(.+?)(?:\s+ORDER\s+BY|\s+LIMIT|\s*$)` over
the statement text, returning the captured condition. -/
def whereSearch : List Char → Option (List Char)
  | [] => none
  | c :: cs =>
    match ciStrip "where".toList (c :: cs) with
    | some rest =>
      let m := (rest.takeWhile isWsChar).length
      match tryWsDescend rest m with
      | some cap => some cap
      | none => whereSearch cs
    | none => whereSearch cs

/-- Source `query.match(/WHERE\s+(.+?)(?:\s+ORDER\s+BY|\s+LIMIT|\s*$)/i)`,
returning the captured group. -/
def whereExtract (query : String) : Option String :=
  (whereSearch query.toList).map fun cap => String.mk cap

/-- Backup SELECT computed by `createBackup` for DELETE/UPDATE: the source
initializes `backupQuery = ''` and only runs it when non-empty, modelled
here as `Option`; the `includes('where')` gate is a plain substring test on
the lower-cased statement. -/
def computeBackupQuery (query : String) (targetTable : String) : Option String :=
  if strContains (jsToLower query) "where" then
    match whereExtract query with
    | some cond => some ("SELECT * FROM " ++ targetTable ++ " WHERE " ++ cond)
    | none => none
  else some ("SELECT * FROM " ++ targetTable)


/-- Broken-down UTC instant as rendered by the JS `Date` object (the month
is the 1-based value printed by `toISOString`). -/
structure JsDate where
  year : Nat
  month : Nat
  day : Nat
  hour : Nat
  minute : Nat
  second : Nat
  ms : Nat
deriving Repr, DecidableEq

/-- Left-pads a numeral to two digits. -/
def pad2 (n : Nat) : String := if n < 10 then "0" ++ toString n else toString n

/-- Left-pads a numeral to three digits. -/
def pad3 (n : Nat) : String :=
  if n < 10 then "00" ++ toString n
  else if n < 100 then "0" ++ toString n
  else toString n

/-- Left-pads a numeral to four digits. -/
def pad4 (n : Nat) : String :=
  if n < 10 then "000" ++ toString n
  else if n < 100 then "00" ++ toString n
  else if n < 1000 then "0" ++ toString n
  else toString n

/-- Modelled from the platform: JS `Date.prototype.toISOString`, the
fixed-width `YYYY-MM-DDTHH:MM:SS.mmmZ` rendering consumed by the source. -/
def toISOString (d : JsDate) : String :=
  pad4 d.year ++ "-" ++ pad2 d.month ++ "-" ++ pad2 d.day ++ "T" ++
  pad2 d.hour ++ ":" ++ pad2 d.minute ++ ":" ++ pad2 d.second ++ "." ++ pad3 d.ms ++ "Z"

/-- Replaces the first occurrence of a character; models JS
`s.replace('T', ' ')` with a single-character pattern. -/
def replaceFirstChar (c r : Char) : List Char → List Char
  | [] => []
  | x :: xs => if x = c then r :: xs else x :: replaceFirstChar c r xs

/-- Models JS `s.slice(-6)`: the last six characters (the whole string when
shorter). -/
def sliceLast6 (s : String) : String := String.mk (s.toList.drop (s.length - 6))

/-- Source timestamp expression (used on both the write path and the
rollback path):
`new Date().toISOString().replace('T', ' ').slice(0, -1) + String(process.hrtime.bigint()).slice(-6)`.
`d` is the wall clock reading and `hrns` the monotonic nanosecond reading at
the moment of the call. -/
def mkTimestamp (d : JsDate) (hrns : Nat) : String :=
  String.mk ((replaceFirstChar 'T' ' ' (toISOString d).toList).dropLast) ++
    sliceLast6 (toString hrns)

/-- Strict lexicographic (character-by-character) comparison of strings,
the order JS `<` and SQLite `ORDER BY` use on these ASCII timestamps. -/
def lexLt : List Char → List Char → Bool
  | [], [] => false
  | [], _ :: _ => true
  | _ :: _, [] => false
  | a :: as, b :: bs => if a = b then lexLt as bs else decide (a < b)

/-- String form of `lexLt`. -/
def strLexLt (a b : String) : Bool := lexLt a.toList b.toList


/-- Structured form of the serialized `backupInfo` document (`backup_data`
JSON); absent JS fields are `none`. -/
structure Backup where
  type : String
  sql_query : String
  deletedRows : Option (List Row) := none
  originalRows : Option (List Row) := none
  structure_ : Option Row := none
  data : Option (List Row) := none
  tableName : Option String := none
  createQuery : Option String := none
  insertId : Option Nat := none
  insertedRows : Option Nat := none
  idRange : Option (Nat × Nat) := none
deriving Repr, DecidableEq

/-- One row of the `version_history` ledger table. -/
structure VersionRecord where
  id : Nat
  session_id : String
  timestamp : String
  operation_type : String
  target_table : Option String
  sql_query : String
  backup_data : Option Backup
  affected_rows : Nat
  description : String
deriving Repr, DecidableEq

/-- JS template interpolation of a possibly-null string (`null` prints as
the text "null"). -/
def tmplOpt : Option String → String
  | some s => s
  | none => "null"

/-- Source `getOperationDescription(operation, tableName, affectedRows)`. -/
def getOperationDescription (operation : String) (tableName : Option String)
    (affectedRows : Nat) : String :=
  if operation = "INSERT" then
    "INSERT operation: " ++ toString affectedRows ++ " row(s) inserted into " ++ tmplOpt tableName
  else if operation = "UPDATE" then
    "UPDATE operation: " ++ toString affectedRows ++ " row(s) updated in " ++ tmplOpt tableName
  else if operation = "DELETE" then
    "DELETE operation: " ++ toString affectedRows ++ " row(s) deleted from " ++ tmplOpt tableName
  else if operation = "CREATE_TABLE" then
    "CREATE TABLE operation: table " ++ tmplOpt tableName ++ " created"
  else if operation = "DROP_TABLE" then
    "DROP TABLE operation: table " ++ tmplOpt tableName ++ " dropped with " ++ toString affectedRows ++ " rows"
  else operation ++ " operation on " ++ tmplOpt tableName

/-- Row set extracted from an executor answer to a SELECT-style statement
(the executor returns a row array for such statements). -/
def rowsOf : ExecResult → List Row
  | .rows rs => rs
  | .result _ _ => []

/-- Capture step of `createBackup` for DELETE/UPDATE: run the derived
backup SELECT (when non-empty) and store the row images under
`deletedRows` or `originalRows`.  Returns the payload with its
affected-row count (or the raised error) plus the statements issued, in
order. -/
def deleteUpdateCapture (conn : Nat → Except String ExecResult) (idx : Nat)
    (operation query targetTable : String) :
    Except String (Option Backup × Nat) × List Stmt :=
  match computeBackupQuery query targetTable with
  | none => (.ok (none, 0), [])
  | some bq =>
    match conn idx with
    | .error e => (.error e, [⟨bq, []⟩])
    | .ok res =>
      let rows := rowsOf res
      let base : Backup := { type := operation, sql_query := query }
      let b := if operation = "DELETE" then { base with deletedRows := some rows }
               else { base with originalRows := some rows }
      (.ok (some b, rows.length), [⟨bq, []⟩])

/-- Capture step of `createBackup` for DROP_TABLE: fetch the full table
contents and the `SHOW CREATE TABLE` row before the drop. -/
def dropTableCapture (conn : Nat → Except String ExecResult) (idx : Nat)
    (operation query targetTable : String) :
    Except String (Option Backup × Nat) × List Stmt :=
  let selStmt : Stmt := ⟨"SELECT * FROM " ++ targetTable, []⟩
  let showStmt : Stmt := ⟨"SHOW CREATE TABLE " ++ targetTable, []⟩
  match conn idx with
  | .error e => (.error e, [selStmt])
  | .ok res1 =>
    let tableData := rowsOf res1
    match conn (idx + 1) with
    | .error e => (.error e, [selStmt, showStmt])
    | .ok res2 =>
      let tableStructure := rowsOf res2
      let b : Backup :=
        { type := operation, sql_query := query, structure_ := tableStructure.head?, data := some tableData }
      (.ok (some b, tableData.length), [selStmt, showStmt])

/-- Capture step of `createBackup` for CREATE_TABLE/INSERT (pure; runs
after execution).  `insertResult` is the executor's DML result as the pair
(affectedRows, insertId); the id range is recorded only when the reported
`insertId` is truthy (non-zero). -/
def insertCreateBackupInfo (operation query : String) (targetTable : Option String)
    (insertResult : Option (Nat × Nat)) : Option Backup × Nat :=
  let base : Backup := { type := operation, sql_query := query }
  if operation = "CREATE_TABLE" then
    (some { base with tableName := targetTable, createQuery := some query }, 0)
  else
    match insertResult with
    | some (affectedRows, insertId) =>
      let b1 : Backup :=
        { base with insertId := some insertId, insertedRows := some affectedRows, tableName := targetTable }
      let b2 := if insertId ≠ 0 then
          { b1 with idRange := some (insertId, insertId + affectedRows - 1) }
        else b1
      (some b2, affectedRows)
    | none => (some base, 0)

/-- Return value of a successful `createBackup` call
(`{ timestamp, backupData, affectedRows }`), or null when no write
permission is enabled. -/
structure BackupRet where
  timestamp : String
  backupData : Option Backup
  affectedRows : Nat
deriving Repr, DecidableEq

deriving instance DecidableEq for Except

/-- Full outcome of one `createBackup` call: the returned value or the
raised error, the statements issued against the executor, the ledger after
the call and the console error log lines. -/
structure CaptureOut where
  ret : Except String (Option BackupRet)
  issued : List Stmt
  ledger : List VersionRecord
  logs : List String
deriving Repr, DecidableEq

/-- Source `createBackup(operation, query, targetTable, insertResult,
connection)`.  `conn` is the executor oracle (answer per call index,
starting at `idx`), `nextId` the identifier the ledger store will assign,
`now`/`hrns` the clock readings.  Any error raised while capturing is
logged as `Backup creation failed` and re-thrown; the ledger append
(`saveVersion`) is modelled on its success path. -/
def createBackup (perms : Permissions) (sessionId : String) (now : JsDate) (hrns : Nat)
    (conn : Nat → Except String ExecResult) (idx : Nat) (nextId : Nat)
    (operation query : String) (targetTable : Option String)
    (insertResult : Option (Nat × Nat)) (connection : Bool)
    (ledger : List VersionRecord) : CaptureOut :=
  if !perms.allowInsert && !perms.allowUpdate && !perms.allowDelete then
    ⟨.ok none, [], ledger, []⟩
  else
    let step : Except String (Option Backup × Nat) × List Stmt :=
      if connection && (operation = "DELETE" || operation = "UPDATE") then
        deleteUpdateCapture conn idx operation query (tmplOpt targetTable)
      else if connection && operation = "DROP_TABLE" then
        dropTableCapture conn idx operation query (tmplOpt targetTable)
      else if operation = "CREATE_TABLE" || operation = "INSERT" then
        (.ok (insertCreateBackupInfo operation query targetTable insertResult), [])
      else
        (.ok (none, 0), [])
    match step with
    | (.error e, issued) =>
      ⟨.error e, issued, ledger, ["Backup creation failed: " ++ e]⟩
    | (.ok (backupData, affectedRows), issued) =>
      let timestamp := mkTimestamp now hrns
      let record : VersionRecord :=
        { id := nextId
          session_id := sessionId
          timestamp := timestamp
          operation_type := operation
          target_table := targetTable
          sql_query := query
          backup_data := backupData
          affected_rows := affectedRows
          description := getOperationDescription operation targetTable affectedRows }
      ⟨.ok (some ⟨timestamp, backupData, affectedRows⟩), issued, ledger ++ [record], []⟩

/-- Display form used by `formatResultsAsTable`:
`String(row[col] || '')`. -/
def jsDisplay : Option Value → String
  | some v => if jsTruthy v then jsString v else ""
  | none => ""

/-- Models JS `s.padEnd(w)`. -/
def padEndStr (s : String) (w : Nat) : String :=
  s ++ String.mk (List.replicate (w - s.length) ' ')

/-- A run of one repeated character (JS `'c'.repeat(n)`). -/
def repeatChar (c : Char) (n : Nat) : String := String.mk (List.replicate n c)

/-- Source `formatResultsAsTable(rows)`: box-drawn table over the first
row's keys, each column padded to the widest display value. -/
def formatResultsAsTable (rows : List Row) : String :=
  match rows with
  | [] => "No results found."
  | r0 :: _ =>
    let columns := r0.map Prod.fst
    let width := fun (col : String) =>
      (rows.map fun row => (jsDisplay (row.lookup col)).length).foldl max col.length
    let line := fun (l m r : String) =>
      l ++ String.intercalate m (columns.map fun col => repeatChar '─' (width col + 2)) ++ r
    let top := line "┌" "┬" "┐" ++ "\n"
    let header := "│" ++
      String.intercalate "│" (columns.map fun col => " " ++ padEndStr col (width col) ++ " ") ++ "│\n"
    let mid := line "├" "┼" "┤" ++ "\n"
    let body := String.join (rows.map fun row =>
      "│" ++ String.intercalate "│"
        (columns.map fun col => " " ++ padEndStr (jsDisplay (row.lookup col)) (width col) ++ " ") ++ "│\n")
    let bot := line "└" "┴" "┘"
    top ++ header ++ mid ++ body ++ bot

/-- Environment of one `handleQuery` call: permission flags, session id,
clock readings, the executor oracle and the next ledger identifier. -/
structure QueryEnv where
  perms : Permissions
  sessionId : String
  now : JsDate
  hrns : Nat
  conn : Nat → Except String ExecResult
  nextId : Nat

/-- Outcome of one `handleQuery` call: the tool response (or the raised
error), the statements issued, the ledger after the call and the console
error log lines. -/
structure QueryOut where
  response : Except String String
  issued : List Stmt
  ledger : List VersionRecord
  logs : List String
deriving DecidableEq

/-- Response text of `handleQuery` for the main statement's result. -/
def queryResponseText : ExecResult → String
  | .rows [] => "Query executed successfully. No rows returned."
  | .rows (r :: rs) => formatResultsAsTable (r :: rs)
  | .result affectedRows _ =>
    "Query executed successfully. Affected rows: " ++ toString affectedRows

/-- Source `handleQuery(args)`: permission check, write-path
classification, pre-execution backup for DELETE/UPDATE/DROP_TABLE (errors
logged as `Backup failed`, never re-thrown), execution of the statement,
and post-execution backup for INSERT when the result carries an
`insertId` field.  `targetTable` is the output of the
`extractTableFromQuery` heuristic on the same query. -/
def handleQuery (env : QueryEnv) (ledger : List VersionRecord)
    (query : String) (targetTable : Option String) : QueryOut :=
  match checkQueryPermissions env.perms query with
  | .error e => ⟨.error e, [], ledger, []⟩
  | .ok _ =>
    let operationType := classifyOperation query
    let needPre :=
      (operationType = some "DELETE" || operationType = some "UPDATE" ||
        operationType = some "DROP_TABLE") && targetTable.isSome
    let pre : CaptureOut :=
      if needPre then
        createBackup env.perms env.sessionId env.now env.hrns env.conn 0 env.nextId
          (operationType.getD "") query targetTable none true ledger
      else ⟨.ok none, [], ledger, []⟩
    let preLogs := pre.logs ++
      (match pre.ret with
       | .error e => ["Backup failed: " ++ e]
       | .ok _ => [])
    let idx1 := pre.issued.length
    match env.conn idx1 with
    | .error e => ⟨.error e, pre.issued ++ [⟨query, []⟩], pre.ledger, preLogs⟩
    | .ok res =>
      let issued2 := pre.issued ++ [⟨query, []⟩]
      match res, operationType, targetTable with
      | .result affectedRows insertId, some "INSERT", some _ =>
        let post := createBackup env.perms env.sessionId env.now env.hrns env.conn
          (idx1 + 1) (env.nextId + (pre.ledger.length - ledger.length)) "INSERT" query
          targetTable (some (affectedRows, insertId)) true pre.ledger
        let postLogs := post.logs ++
          (match post.ret with
           | .error e => ["Backup failed: " ++ e]
           | .ok _ => [])
        ⟨.ok (queryResponseText res), issued2 ++ post.issued, post.ledger, preLogs ++ postLogs⟩
      | _, _, _ => ⟨.ok (queryResponseText res), issued2, pre.ledger, preLogs⟩

/-- Character-class pattern for the source regex
`^\d{4}-\d{2}-\d{2}T\d{2}:\d{2}:\d{2}` used to detect driver-returned
ISO-8601 date-time strings in row values. -/
def isoPat : List (Char → Bool) :=
  [Char.isDigit, Char.isDigit, Char.isDigit, Char.isDigit, (· = '-'),
   Char.isDigit, Char.isDigit, (· = '-'), Char.isDigit, Char.isDigit,
   (· = 'T'), Char.isDigit, Char.isDigit, (· = ':'), Char.isDigit,
   Char.isDigit, (· = ':'), Char.isDigit, Char.isDigit]

/-- Anchored prefix match of a character-class pattern. -/
def matchPat : List Char → List (Char → Bool) → Bool
  | _, [] => true
  | [], _ :: _ => false
  | c :: cs, p :: ps => p c && matchPat cs ps

/-- Row-value normalization applied before binding values into rollback
statements: a string matching the ISO date-time prefix is reformatted via
`new Date(value).toISOString().slice(0, 19).replace('T', ' ')`; that JS
`Date` round-trip is the external runtime's conversion, passed in as
`dateFmt`. -/
def normalizeValue (dateFmt : String → String) : Value → Value
  | .vStr s => if matchPat s.toList isoPat then .vStr (dateFmt s) else .vStr s
  | v => v

/-- Per-row re-insertion statement used by the DELETE and DROP_TABLE
rollback branches:
`INSERT INTO <table> (<columns>) VALUES (?, ...)` with the row's
normalized values as parameters. -/
def insertRowStmt (dateFmt : String → String) (targetTable : String) (row : Row) : Stmt :=
  let columns := row.map Prod.fst
  let values := row.map fun p => normalizeValue dateFmt p.2
  let placeholders := String.intercalate ", " (columns.map fun _ => "?")
  ⟨"INSERT INTO " ++ targetTable ++ " (" ++ String.intercalate ", " columns ++
     ") VALUES (" ++ placeholders ++ ")", values⟩

/-- Per-row restoration statement of the UPDATE rollback branch: issued
only when `row.id` is truthy; sets every non-id column and keys the row by
`WHERE id = ?`, binding the normalized non-id values followed by the raw
id value. -/
def updateRowStmt (dateFmt : String → String) (targetTable : String) (row : Row) : Option Stmt :=
  let columns := row.map Prod.fst
  match row.lookup "id" with
  | some idv =>
    if jsTruthy idv then
      let setClause :=
        String.intercalate ", " ((columns.filter (· ≠ "id")).map fun col => col ++ " = ?")
      let updateValues := row.filterMap fun p =>
        if p.1 ≠ "id" then some (normalizeValue dateFmt p.2) else none
      some ⟨"UPDATE " ++ targetTable ++ " SET " ++ setClause ++ " WHERE id = ?",
            updateValues ++ [idv]⟩
    else none
  | none => none

/-- Manual-intervention text returned when an INSERT record has no
recorded id range. -/
def insertManualMsg : String :=
  "INSERT rollback: Cannot automatically delete inserted data without primary key info. Manual deletion may be required."

/-- Text of the stored `Create Table` value bound into the re-creation
statement (`backupData.structure['Create Table']`); the driver stores it
as a string, and an absent field renders the way JS stringifies
`undefined`. -/
def createStmtText : Option Value → String
  | some v => jsString v
  | none => "undefined"

/-- Inverse action of `handleRollbackToVersion` for one history record:
the ordered statements to issue and the success message assembled by the
matching operation-type branch (both empty strings of statements and text
when a guard fails or the type has no branch). -/
def inverseActions (dateFmt : String → String) (vi : VersionRecord) (b : Backup) :
    List Stmt × String :=
  let tt := tmplOpt vi.target_table
  if vi.operation_type = "DELETE" then
    match b.deletedRows with
    | some rows =>
      if rows.length > 0 then
        (rows.map (insertRowStmt dateFmt tt),
         "Restored " ++ toString rows.length ++ " deleted rows to table '" ++ tt ++ "'")
      else ([], "")
    | none => ([], "")
  else if vi.operation_type = "UPDATE" then
    match b.originalRows with
    | some rows =>
      if rows.length > 0 then
        (rows.filterMap (updateRowStmt dateFmt tt),
         "Restored " ++ toString rows.length ++ " rows to original state in table '" ++ tt ++ "'")
      else ([], "")
    | none => ([], "")
  else if vi.operation_type = "INSERT" then
    match b.idRange with
    | some (start, stop) =>
      if start = stop then
        ([⟨"DELETE FROM " ++ tt ++ " WHERE id = ?", [.vInt start]⟩],
         "Deleted inserted row with id " ++ toString start ++ " from table '" ++ tt ++ "'")
      else
        ([⟨"DELETE FROM " ++ tt ++ " WHERE id BETWEEN ? AND ?", [.vInt start, .vInt stop]⟩],
         "Deleted inserted rows with ids " ++ toString start ++ "-" ++ toString stop ++
           " from table '" ++ tt ++ "'")
    | none => ([], insertManualMsg)
  else if vi.operation_type = "DROP_TABLE" then
    match b.structure_, b.data with
    | some st, some rows =>
      let createStmt : Stmt := ⟨createStmtText (st.lookup "Create Table"), []⟩
      (createStmt :: rows.map (insertRowStmt dateFmt tt),
       "Restored table '" ++ tt ++ "' with " ++ toString rows.length ++ " rows")
    | _, _ => ([], "")
  else if vi.operation_type = "CREATE_TABLE" then
    ([⟨"DROP TABLE IF EXISTS " ++ tt, []⟩],
     "Dropped table '" ++ tt ++ "' (rollback CREATE TABLE)")
  else ([], "")

/-- Executes statements in order against the executor oracle, stopping at
the first raised error; returns the issued statements (the failing one
included) and the error, if any. -/
def runStmts (conn : Nat → Except String ExecResult) : Nat → List Stmt →
    List Stmt × Option String
  | _, [] => ([], none)
  | i, s :: rest =>
    match conn i with
    | .error e => ([s], some e)
    | .ok _ =>
      let (is, err) := runStmts conn (i + 1) rest
      (s :: is, err)

/-- Environment of one `handleRollbackToVersion` call. -/
structure RollbackEnv where
  conn : Nat → Except String ExecResult
  dateFmt : String → String
  now : JsDate
  hrns : Nat
  nextId : Nat
  sessionId : String

/-- Outcome of one `handleRollbackToVersion` call. -/
structure RollbackOutcome where
  response : String
  isError : Bool
  issued : List Stmt
  ledger : List VersionRecord
deriving DecidableEq

/-- ROLLBACK marker record appended after a successful inverse action. -/
def rollbackMarker (env : RollbackEnv) (versionId : Nat) (vi : VersionRecord) : VersionRecord :=
  { id := env.nextId
    session_id := env.sessionId
    timestamp := mkTimestamp env.now env.hrns
    operation_type := "ROLLBACK"
    target_table := vi.target_table
    sql_query := "ROLLBACK TO VERSION " ++ toString versionId
    backup_data := none
    affected_rows := 0
    description := "Rollback to version " ++ toString versionId }

/-- Source `handleRollbackToVersion(args)`: looks the record up by id,
reports (changing nothing) when it is missing or carries no backup
payload, otherwise issues the inverse statements; a raised error maps to
a `Rollback failed` report with nothing appended, success appends one
ROLLBACK marker and reports `Rollback successful!`. -/
def handleRollbackToVersion (env : RollbackEnv) (ledger : List VersionRecord)
    (versionId : Nat) : RollbackOutcome :=
  match ledger.find? (fun r => r.id = versionId) with
  | none =>
    ⟨"Version " ++ toString versionId ++ " not found.", true, [], ledger⟩
  | some vi =>
    match vi.backup_data with
    | none =>
      ⟨"Version " ++ toString versionId ++ " has no backup data to restore.", true, [], ledger⟩
    | some b =>
      let (stmts, result) := inverseActions env.dateFmt vi b
      let (issued, errOut) := runStmts env.conn 0 stmts
      match errOut with
      | some e => ⟨"Rollback failed: " ++ e, true, issued, ledger⟩
      | none =>
        ⟨"Rollback successful!\n" ++ result, false, issued,
         ledger ++ [rollbackMarker env versionId vi]⟩

/-! Helper lemmas shared across the verification. -/

theorem listHasInfix_self (p : List Char) : listHasInfix p p = true := by
  cases p with
  | nil => rfl
  | cons c cs => simp [listHasInfix, List.isPrefixOf_iff_prefix]

theorem listHasInfix_append_right (x p : List Char) : listHasInfix p (x ++ p) = true := by
  induction x with
  | nil => simpa using listHasInfix_self p
  | cons c cs ih => simp [listHasInfix, ih]

theorem strContains_append_right (a p : String) : strContains (a ++ p) p = true := by
  have h : (a ++ p).toList = a.toList ++ p.toList := rfl
  simpa [strContains, h] using listHasInfix_append_right a.toList p.toList

theorem strStarts_append (a x : String) : strStarts (a ++ x) a = true := by
  have h : a.toList <+: (a ++ x).toList := ⟨x.toList, rfl⟩
  exact List.isPrefixOf_iff_prefix.mpr h

/-- A string starting with prefix `p` cannot also start with a shorter
word `q` that is not itself a prefix of `p`. -/
theorem strStartsExcl {n : String} (p q : String) (h : strStarts n p = true)
    (hlen : q.toList.length ≤ p.toList.length) (hnp : ¬ (q.toList <+: p.toList)) :
    strStarts n q = false := by
  by_contra hne
  rw [Bool.not_eq_false] at hne
  have h1 : p.toList <+: n.toList := List.isPrefixOf_iff_prefix.mp h
  have h2 : q.toList <+: n.toList := List.isPrefixOf_iff_prefix.mp hne
  exact hnp (List.prefix_of_prefix_length_le h2 h1 hlen)

/-- The spec-side reading of "the statement contains a WHERE clause"
(refinement reference, following the spec's words, not the source): the
keyword WHERE occurs as a whitespace-delimited word of the statement. -/
def wordsAux (cur : List Char) : List Char → List (List Char)
  | [] => [cur.reverse]
  | c :: cs =>
    if isWsChar c then cur.reverse :: wordsAux [] cs else wordsAux (c :: cur) cs

/-- Whitespace-delimited words of a statement. -/
def sqlWords (q : String) : List (List Char) := wordsAux [] (jsToUpper q).toList

/-- Spec-side predicate: the statement has a WHERE keyword (as a word). -/
def hasWhereKeyword (q : String) : Bool :=
  (sqlWords q).any fun w => w = "WHERE".toList

/-- C5 (code_bug): the record timestamp is the millisecond-precision ISO
wall-clock rendering with the *last six decimal digits* of the monotonic
`process.hrtime.bigint()` reading appended.  Those six digits wrap every
millisecond, so two appends within one wall-clock millisecond can produce
a later timestamp that sorts lexicographically *before* the earlier one:
with the same wall-clock reading, hrtime 999999ns then 1000005ns give
suffixes "999999" then "000005".  This contradicts the claimed monotone
non-decreasing lexical order (which `mysql_list_versions`' ORDER BY
timestamp relies on). -/
theorem C5_timestamp_not_monotone :
    999999 < 1000005 ∧
    mkTimestamp ⟨2025, 3, 10, 12, 0, 0, 123⟩ 999999 = "2025-03-10 12:00:00.123999999" ∧
    mkTimestamp ⟨2025, 3, 10, 12, 0, 0, 123⟩ 1000005 = "2025-03-10 12:00:00.123000005" ∧
    strLexLt (mkTimestamp ⟨2025, 3, 10, 12, 0, 0, 123⟩ 1000005)
      (mkTimestamp ⟨2025, 3, 10, 12, 0, 0, 123⟩ 999999) = true := by
  refine ⟨by decide, by decide, by decide, by decide⟩

/-- C6 (counterexample): a statement beginning with ALTER TABLE is given
no operation kind at all by the write-path classifier (so no backup
record is taken for it), contradicting the claimed ALTER TABLE → UPDATE
assignment. -/
theorem C6_counterexample :
    strStarts (jsToUpper (jsTrim "ALTER TABLE users ADD COLUMN age INT")) "ALTER TABLE" = true ∧
    classifyOperation "ALTER TABLE users ADD COLUMN age INT" ≠ some "UPDATE" ∧
    classifyOperation "ALTER TABLE users ADD COLUMN age INT" = none := by
  refine ⟨by decide, by decide, by decide⟩

theorem strContains_of_strStarts {s p : String} (h : strStarts s p = true) :
    strContains s p = true := by
  unfold strContains
  unfold strStarts at h
  cases hs : s.toList with
  | nil =>
    rw [hs] at h
    have hp : p.toList <+: ([] : List Char) := List.isPrefixOf_iff_prefix.mp h
    simp [listHasInfix]
    exact List.prefix_nil.mp hp
  | cons c cs =>
    rw [hs] at h
    simp [listHasInfix]
    exact Or.inl (List.isPrefixOf_iff_prefix.mp h)

/-- C6 (amended): the write-path classifier's first-match-wins precedence
is DELETE-like text (leading DELETE or a TRUNCATE substring) → DELETE,
then a leading UPDATE → UPDATE, then a leading INSERT → INSERT, then a
DROP TABLE substring → DROP_TABLE, and otherwise *no* kind; in particular
a statement beginning with ALTER TABLE (without TRUNCATE / DROP TABLE
text) is assigned no kind at all on the write path — only the separate
permission gate treats ALTER TABLE as UPDATE-class. -/
theorem C6_amended_classifier (q : String) (perms : Permissions) :
    ((strStarts (jsToUpper (jsTrim q)) "DELETE" || strContains (jsToUpper (jsTrim q)) "TRUNCATE") = true →
      classifyOperation q = some "DELETE") ∧
    ((strStarts (jsToUpper (jsTrim q)) "DELETE" || strContains (jsToUpper (jsTrim q)) "TRUNCATE") = false →
      strStarts (jsToUpper (jsTrim q)) "UPDATE" = true →
      classifyOperation q = some "UPDATE") ∧
    ((strStarts (jsToUpper (jsTrim q)) "DELETE" || strContains (jsToUpper (jsTrim q)) "TRUNCATE") = false →
      strStarts (jsToUpper (jsTrim q)) "UPDATE" = false →
      strStarts (jsToUpper (jsTrim q)) "INSERT" = true →
      classifyOperation q = some "INSERT") ∧
    ((strStarts (jsToUpper (jsTrim q)) "DELETE" || strContains (jsToUpper (jsTrim q)) "TRUNCATE") = false →
      strStarts (jsToUpper (jsTrim q)) "UPDATE" = false →
      strStarts (jsToUpper (jsTrim q)) "INSERT" = false →
      strContains (jsToUpper (jsTrim q)) "DROP TABLE" = true →
      classifyOperation q = some "DROP_TABLE") ∧
    ((strStarts (jsToUpper (jsTrim q)) "DELETE" || strContains (jsToUpper (jsTrim q)) "TRUNCATE") = false →
      strStarts (jsToUpper (jsTrim q)) "UPDATE" = false →
      strStarts (jsToUpper (jsTrim q)) "INSERT" = false →
      strContains (jsToUpper (jsTrim q)) "DROP TABLE" = false →
      classifyOperation q = none) ∧
    (strStarts (jsToUpper (jsTrim q)) "ALTER TABLE" = true →
      strContains (jsToUpper (jsTrim q)) "TRUNCATE" = false →
      strContains (jsToUpper (jsTrim q)) "DROP TABLE" = false →
      classifyOperation q = none) ∧
    (strStarts (jsToUpper (jsTrim q)) "ALTER TABLE" = true →
      strContains (jsToUpper (jsTrim q)) "DROP TABLE" = false →
      strContains (jsToUpper (jsTrim q)) "DROP DATABASE" = false →
      strContains (jsToUpper (jsTrim q)) "TRUNCATE" = false →
      perms.allowUpdate = false →
      checkQueryPermissions perms q =
        .error "UPDATE operations are not allowed. Set ALLOW_UPDATE_OPERATION=true to enable.") := by
  refine ⟨?_, ?_, ?_, ?_, ?_, ?_, ?_⟩
  · intro h1
    simp [classifyOperation, h1]
  · intro h1 h2
    simp [classifyOperation, h1, h2]
  · intro h1 h2 h3
    simp [classifyOperation, h1, h2, h3]
  · intro h1 h2 h3 h4
    simp [classifyOperation, h1, h2, h3, h4]
  · intro h1 h2 h3 h4
    simp [classifyOperation, h1, h2, h3, h4]
  · intro halt htr hdt
    have hdel : strStarts (jsToUpper (jsTrim q)) "DELETE" = false :=
      strStartsExcl "ALTER TABLE" "DELETE" halt (by decide) (by decide)
    have hupd : strStarts (jsToUpper (jsTrim q)) "UPDATE" = false :=
      strStartsExcl "ALTER TABLE" "UPDATE" halt (by decide) (by decide)
    have hins : strStarts (jsToUpper (jsTrim q)) "INSERT" = false :=
      strStartsExcl "ALTER TABLE" "INSERT" halt (by decide) (by decide)
    simp [classifyOperation, hdel, hupd, hins, htr, hdt]
  · intro halt hdt hdd htr hperm
    have hdel : strStarts (jsToUpper (jsTrim q)) "DELETE" = false :=
      strStartsExcl "ALTER TABLE" "DELETE" halt (by decide) (by decide)
    have hat : strContains (jsToUpper (jsTrim q)) "ALTER TABLE" = true :=
      strContains_of_strStarts halt
    simp [checkQueryPermissions, hdel, hdt, hdd, htr, hat, hperm]

theorem C6_witness :
    classifyOperation "ALTER TABLE t ADD COLUMN c INT" = none ∧
    checkQueryPermissions ⟨true, false, true⟩ "ALTER TABLE t ADD COLUMN c INT" =
      .error "UPDATE operations are not allowed. Set ALLOW_UPDATE_OPERATION=true to enable." := by
  have h := C6_amended_classifier "ALTER TABLE t ADD COLUMN c INT" ⟨true, false, true⟩
  exact ⟨h.2.2.2.2.2.1 (by decide) (by decide) (by decide),
         h.2.2.2.2.2.2 (by decide) (by decide) (by decide) (by decide) rfl⟩

/-- C4 (counterexample): `UPDATE t SET nowhere=1` contains no WHERE
clause (no WHERE keyword occurs as a word of the statement), yet because
the text contains the letters "where" inside the identifier `nowhere`,
the capture gate takes the regex path, the regex finds no `WHERE`
followed by whitespace, the backup query stays empty, and *no* snapshot
is taken at all — not a full-table snapshot as claimed. -/
theorem C4_counterexample :
    hasWhereKeyword "UPDATE t SET nowhere=1" = false ∧
    strContains (jsToLower "UPDATE t SET nowhere=1") "where" = true ∧
    computeBackupQuery "UPDATE t SET nowhere=1" "t" = none ∧
    deleteUpdateCapture (fun _ => .ok (.rows [])) 0 "UPDATE" "UPDATE t SET nowhere=1" "t" =
      (.ok (none, 0), []) := by
  refine ⟨by decide, by decide, by decide, by decide⟩

/-- C4 (amended): for every UPDATE/DELETE statement whose text does not
contain the substring "where" (case-insensitively), the capture query is
`SELECT * FROM <table>` with no filter, and the captured payload stores
exactly the row images the executor returns for that full-table SELECT. -/
theorem C4_amended_full_table (q t : String) (conn : Nat → Except String ExecResult)
    (idx : Nat) (rs : List Row)
    (hw : strContains (jsToLower q) "where" = false)
    (hc : conn idx = .ok (.rows rs)) :
    computeBackupQuery q t = some ("SELECT * FROM " ++ t) ∧
    deleteUpdateCapture conn idx "DELETE" q t =
      (.ok (some { type := "DELETE", sql_query := q, deletedRows := some rs }, rs.length),
       [⟨"SELECT * FROM " ++ t, []⟩]) ∧
    deleteUpdateCapture conn idx "UPDATE" q t =
      (.ok (some { type := "UPDATE", sql_query := q, originalRows := some rs }, rs.length),
       [⟨"SELECT * FROM " ++ t, []⟩]) := by
  have hbq : computeBackupQuery q t = some ("SELECT * FROM " ++ t) := by
    simp [computeBackupQuery, hw]
  refine ⟨hbq, ?_, ?_⟩ <;>
    simp [deleteUpdateCapture, hbq, hc, rowsOf]

theorem C4_witness :
    computeBackupQuery "DELETE FROM t" "t" = some "SELECT * FROM t" ∧
    deleteUpdateCapture (fun _ => .ok (.rows [[("id", Value.vInt 1)]])) 0 "DELETE"
        "DELETE FROM t" "t" =
      (.ok (some { type := "DELETE", sql_query := "DELETE FROM t",
                   deletedRows := some [[("id", Value.vInt 1)]] }, 1),
       [⟨"SELECT * FROM t", []⟩]) := by
  have h := C4_amended_full_table "DELETE FROM t" "t"
    (fun _ => .ok (.rows [[("id", Value.vInt 1)]])) 0 [[("id", Value.vInt 1)]]
    (by decide) rfl
  exact ⟨h.1, h.2.1⟩

/-- C8 (counterexample): a row image that *does* carry the identity
column `id`, with value 0, is nevertheless skipped by the UPDATE rollback
(the source guards each row with JS truthiness of `row.id`, and 0 is
falsy), so no restoration statement is issued for it. -/
theorem C8_counterexample :
    (([("id", Value.vInt 0), ("name", Value.vStr "a")] : Row).lookup "id"
      = some (Value.vInt 0)) ∧
    updateRowStmt (fun s => s) "t" [("id", Value.vInt 0), ("name", Value.vStr "a")] = none ∧
    (inverseActions (fun s => s)
      { id := 1, session_id := "s", timestamp := "ts", operation_type := "UPDATE",
        target_table := some "t", sql_query := "UPDATE t SET name=2 WHERE id=0",
        backup_data := some { type := "UPDATE", sql_query := "UPDATE t SET name=2 WHERE id=0",
                              originalRows := some [[("id", Value.vInt 0), ("name", Value.vStr "a")]] },
        affected_rows := 1, description := "d" }
      { type := "UPDATE", sql_query := "UPDATE t SET name=2 WHERE id=0",
        originalRows := some [[("id", Value.vInt 0), ("name", Value.vStr "a")]] }).1 = [] := by
  refine ⟨by decide, by decide, by decide⟩

/-- C8 (amended): when rolling back an UPDATE record, the issued
statements are exactly one `UPDATE targetTable SET <all non-id columns>
WHERE id = ?` per payload row whose `id` value is present *and truthy*
(binding the normalized non-id values followed by the raw id), in payload
order; rows whose `id` field is absent — or falsy, such as 0 — are
skipped, and no statement touches any other row. -/
theorem C8_amended_update_rollback (f : String → String) (t : String) (rows : List Row)
    (vi : VersionRecord) (b : Backup)
    (hop : vi.operation_type = "UPDATE") (ht : vi.target_table = some t)
    (hb : b.originalRows = some rows) (hne : rows ≠ []) :
    (inverseActions f vi b).1 = rows.filterMap (updateRowStmt f t) ∧
    (∀ row ∈ rows, ∀ idv, row.lookup "id" = some idv → jsTruthy idv = true →
      updateRowStmt f t row = some
        ⟨"UPDATE " ++ t ++ " SET " ++
          String.intercalate ", " (((row.map Prod.fst).filter (fun col => col ≠ "id")).map
            fun col => col ++ " = ?") ++ " WHERE id = ?",
          (row.filterMap fun p => if p.1 ≠ "id" then some (normalizeValue f p.2) else none)
            ++ [idv]⟩) ∧
    (∀ row ∈ rows, row.lookup "id" = none → updateRowStmt f t row = none) := by
  have hlen : rows.length > 0 := List.length_pos.mpr hne
  refine ⟨?_, ?_, ?_⟩
  · simp [inverseActions, hop, ht, hb, hlen, tmplOpt]
  · intro row _ idv hlk htr
    simp [updateRowStmt, hlk, htr]
  · intro row _ hlk
    simp [updateRowStmt, hlk]

theorem C8_witness :
    (inverseActions (fun s => s)
      { id := 1, session_id := "s", timestamp := "ts", operation_type := "UPDATE",
        target_table := some "t", sql_query := "UPDATE t SET name=2 WHERE id=5",
        backup_data := none, affected_rows := 1, description := "d" }
      { type := "UPDATE", sql_query := "UPDATE t SET name=2 WHERE id=5",
        originalRows := some [[("id", Value.vInt 5), ("name", Value.vStr "a")]] }).1 =
      [⟨"UPDATE t SET name = ? WHERE id = ?", [Value.vStr "a", Value.vInt 5]⟩] := by
  have h := C8_amended_update_rollback (fun s => s) "t"
    [[("id", Value.vInt 5), ("name", Value.vStr "a")]]
    { id := 1, session_id := "s", timestamp := "ts", operation_type := "UPDATE",
      target_table := some "t", sql_query := "UPDATE t SET name=2 WHERE id=5",
      backup_data := none, affected_rows := 1, description := "d" }
    { type := "UPDATE", sql_query := "UPDATE t SET name=2 WHERE id=5",
      originalRows := some [[("id", Value.vInt 5), ("name", Value.vStr "a")]] }
    rfl rfl rfl (by decide)
  rw [h.1]
  decide

/-- C3: an INSERT capture derives the id range
`[insertId, insertId + affectedRows - 1]` from the executor's DML result
(absent when no identity was generated, i.e. the reported insertId is 0);
a one-row insert gives a degenerate range with start = end, whose
rollback issues the single-row `DELETE ... WHERE id = ?` statement — a
different statement from the BETWEEN range delete — and a record with no
range rolls back to zero statements plus the manual-intervention
message. -/
theorem C3_insert_id_range (q t : String) (n iid : Nat) (f : String → String)
    (vi : VersionRecord) (b : Backup)
    (hop : vi.operation_type = "INSERT") (ht : vi.target_table = some t)
    (hb : (insertCreateBackupInfo "INSERT" q (some t) (some (n, iid))).1 = some b) :
    (insertCreateBackupInfo "INSERT" q (some t) (some (n, iid))).2 = n ∧
    (iid ≠ 0 → b.idRange = some (iid, iid + n - 1)) ∧
    (iid ≠ 0 → n = 1 → inverseActions f vi b =
      ([⟨"DELETE FROM " ++ t ++ " WHERE id = ?", [Value.vInt (iid : Int)]⟩],
       "Deleted inserted row with id " ++ toString iid ++ " from table '" ++ t ++ "'") ∧
      ("DELETE FROM " ++ t ++ " WHERE id = ?") ≠
        ("DELETE FROM " ++ t ++ " WHERE id BETWEEN ? AND ?")) ∧
    (iid = 0 → b.idRange = none ∧ inverseActions f vi b = ([], insertManualMsg)) := by
  simp [insertCreateBackupInfo] at hb
  refine ⟨by simp [insertCreateBackupInfo], ?_, ?_, ?_⟩
  · intro hiid
    rw [if_neg hiid] at hb
    rw [← hb]
  · intro hiid hn
    subst hn
    rw [if_neg hiid] at hb
    have hrange : b.idRange = some (iid, iid) := by
      rw [← hb]
      simp
    constructor
    · simp [inverseActions, hop, ht, hrange, tmplOpt]
    · intro h
      have h2 : ("DELETE FROM ".data ++ t.data) ++ " WHERE id = ?".data
          = ("DELETE FROM ".data ++ t.data) ++ " WHERE id BETWEEN ? AND ?".data :=
        congrArg String.data h
      exact absurd (List.append_cancel_left h2) (by decide)
  · intro hiid
    rw [if_pos hiid] at hb
    have hrange : b.idRange = none := by rw [← hb]
    refine ⟨hrange, ?_⟩
    simp [inverseActions, hop, ht, hrange]

theorem C3_witness :
    (insertCreateBackupInfo "INSERT" "INSERT INTO t (name) VALUES (?)" (some "t")
        (some (1, 5))).1 =
      some { type := "INSERT", sql_query := "INSERT INTO t (name) VALUES (?)",
             tableName := some "t", insertId := some 5, insertedRows := some 1,
             idRange := some (5, 5) } ∧
    inverseActions (fun s => s)
      { id := 1, session_id := "s", timestamp := "ts", operation_type := "INSERT",
        target_table := some "t", sql_query := "INSERT INTO t (name) VALUES (?)",
        backup_data := none, affected_rows := 1, description := "d" }
      { type := "INSERT", sql_query := "INSERT INTO t (name) VALUES (?)",
        tableName := some "t", insertId := some 5, insertedRows := some 1,
        idRange := some (5, 5) } =
      ([⟨"DELETE FROM t WHERE id = ?", [Value.vInt 5]⟩],
       "Deleted inserted row with id 5 from table 't'") := by
  have h := C3_insert_id_range "INSERT INTO t (name) VALUES (?)" "t" 1 5 (fun s => s)
    { id := 1, session_id := "s", timestamp := "ts", operation_type := "INSERT",
      target_table := some "t", sql_query := "INSERT INTO t (name) VALUES (?)",
      backup_data := none, affected_rows := 1, description := "d" }
    { type := "INSERT", sql_query := "INSERT INTO t (name) VALUES (?)",
      tableName := some "t", insertId := some 5, insertedRows := some 1,
      idRange := some (5, 5) }
    rfl rfl (by decide)
  have h2 := h.2.2.1 (by decide) rfl
  refine ⟨by decide, ?_⟩
  rw [h2.1]
  decide

/-- C7: a restore request whose version id matches no ledger record, or
whose matched record has a null backup payload, returns an error report
and changes nothing: no SQL is issued and the ledger is unchanged (in
particular no ROLLBACK marker is appended). -/
theorem C7_rollback_guards (env : RollbackEnv) (ledger : List VersionRecord) (vid : Nat) :
    (ledger.find? (fun r => r.id = vid) = none →
      handleRollbackToVersion env ledger vid =
        ⟨"Version " ++ toString vid ++ " not found.", true, [], ledger⟩) ∧
    (∀ vi, ledger.find? (fun r => r.id = vid) = some vi → vi.backup_data = none →
      handleRollbackToVersion env ledger vid =
        ⟨"Version " ++ toString vid ++ " has no backup data to restore.", true, [], ledger⟩) := by
  constructor
  · intro h
    simp [handleRollbackToVersion, h]
  · intro vi h hb
    simp [handleRollbackToVersion, h, hb]

theorem C7_witness :
    handleRollbackToVersion
      ⟨fun _ => .ok (.rows []), fun s => s, ⟨2025, 1, 1, 0, 0, 0, 0⟩, 0, 2, "s"⟩ [] 5 =
      ⟨"Version 5 not found.", true, [], []⟩ ∧
    handleRollbackToVersion
      ⟨fun _ => .ok (.rows []), fun s => s, ⟨2025, 1, 1, 0, 0, 0, 0⟩, 0, 2, "s"⟩
      [{ id := 1, session_id := "s", timestamp := "ts", operation_type := "ROLLBACK",
         target_table := some "t", sql_query := "ROLLBACK TO VERSION 0",
         backup_data := none, affected_rows := 0, description := "d" }] 1 =
      ⟨"Version 1 has no backup data to restore.", true, [],
       [{ id := 1, session_id := "s", timestamp := "ts", operation_type := "ROLLBACK",
          target_table := some "t", sql_query := "ROLLBACK TO VERSION 0",
          backup_data := none, affected_rows := 0, description := "d" }]⟩ := by
  constructor
  · have h := (C7_rollback_guards
      ⟨fun _ => .ok (.rows []), fun s => s, ⟨2025, 1, 1, 0, 0, 0, 0⟩, 0, 2, "s"⟩ [] 5).1 rfl
    rw [h]
    decide
  · have h := (C7_rollback_guards
      ⟨fun _ => .ok (.rows []), fun s => s, ⟨2025, 1, 1, 0, 0, 0, 0⟩, 0, 2, "s"⟩
      [{ id := 1, session_id := "s", timestamp := "ts", operation_type := "ROLLBACK",
         target_table := some "t", sql_query := "ROLLBACK TO VERSION 0",
         backup_data := none, affected_rows := 0, description := "d" }] 1).2
      { id := 1, session_id := "s", timestamp := "ts", operation_type := "ROLLBACK",
        target_table := some "t", sql_query := "ROLLBACK TO VERSION 0",
        backup_data := none, affected_rows := 0, description := "d" }
      (by decide) rfl
    rw [h]
    decide

/-- C10: a record with a non-null backup payload whose inverse action
issues zero statements (INSERT without an id range, DELETE with an empty
`deletedRows` array, UPDATE with an empty `originalRows` array) still
appends a ROLLBACK marker and returns a `Rollback successful!` response —
never an error — although nothing was restored. -/
theorem C10_empty_rollback_success (env : RollbackEnv) (ledger : List VersionRecord)
    (vid : Nat) (vi : VersionRecord) (b : Backup)
    (hf : ledger.find? (fun r => r.id = vid) = some vi)
    (hb : vi.backup_data = some b)
    (hcase : (vi.operation_type = "INSERT" ∧ b.idRange = none) ∨
             (vi.operation_type = "DELETE" ∧ b.deletedRows = some []) ∨
             (vi.operation_type = "UPDATE" ∧ b.originalRows = some [])) :
    handleRollbackToVersion env ledger vid =
      ⟨"Rollback successful!\n" ++ (inverseActions env.dateFmt vi b).2, false, [],
       ledger ++ [rollbackMarker env vid vi]⟩ ∧
    strStarts ("Rollback successful!\n" ++ (inverseActions env.dateFmt vi b).2)
      "Rollback successful!" = true := by
  have hstmts : (inverseActions env.dateFmt vi b).1 = [] := by
    rcases hcase with ⟨hop, hr⟩ | ⟨hop, hr⟩ | ⟨hop, hr⟩ <;> simp [inverseActions, hop, hr]
  obtain ⟨r, hinv⟩ : ∃ r, inverseActions env.dateFmt vi b = ([], r) :=
    ⟨(inverseActions env.dateFmt vi b).2, by rw [← hstmts]⟩
  constructor
  · rw [hinv]
    simp [handleRollbackToVersion, hf, hb, hinv, runStmts]
  · have hlit : ("Rollback successful!\n" : String) = "Rollback successful!" ++ "\n" := by
      decide
    rw [hlit, String.append_assoc]
    exact strStarts_append "Rollback successful!" ("\n" ++ (inverseActions env.dateFmt vi b).2)

theorem C10_witness :
    handleRollbackToVersion
      ⟨fun _ => .ok (.rows []), fun s => s, ⟨2025, 1, 1, 0, 0, 0, 0⟩, 123456, 4, "s"⟩
      [{ id := 3, session_id := "s", timestamp := "ts", operation_type := "DELETE",
         target_table := some "t", sql_query := "DELETE FROM t WHERE id = 9",
         backup_data := some { type := "DELETE", sql_query := "DELETE FROM t WHERE id = 9",
                               deletedRows := some [] },
         affected_rows := 0, description := "d" }] 3 =
      ⟨"Rollback successful!\n", false, [],
       [{ id := 3, session_id := "s", timestamp := "ts", operation_type := "DELETE",
          target_table := some "t", sql_query := "DELETE FROM t WHERE id = 9",
          backup_data := some { type := "DELETE", sql_query := "DELETE FROM t WHERE id = 9",
                                deletedRows := some [] },
          affected_rows := 0, description := "d" },
        rollbackMarker
          ⟨fun _ => .ok (.rows []), fun s => s, ⟨2025, 1, 1, 0, 0, 0, 0⟩, 123456, 4, "s"⟩ 3
          { id := 3, session_id := "s", timestamp := "ts", operation_type := "DELETE",
            target_table := some "t", sql_query := "DELETE FROM t WHERE id = 9",
            backup_data := some { type := "DELETE", sql_query := "DELETE FROM t WHERE id = 9",
                                  deletedRows := some [] },
            affected_rows := 0, description := "d" }]⟩ := by
  have h := (C10_empty_rollback_success
    ⟨fun _ => .ok (.rows []), fun s => s, ⟨2025, 1, 1, 0, 0, 0, 0⟩, 123456, 4, "s"⟩
    [{ id := 3, session_id := "s", timestamp := "ts", operation_type := "DELETE",
       target_table := some "t", sql_query := "DELETE FROM t WHERE id = 9",
       backup_data := some { type := "DELETE", sql_query := "DELETE FROM t WHERE id = 9",
                             deletedRows := some [] },
       affected_rows := 0, description := "d" }] 3
    { id := 3, session_id := "s", timestamp := "ts", operation_type := "DELETE",
      target_table := some "t", sql_query := "DELETE FROM t WHERE id = 9",
      backup_data := some { type := "DELETE", sql_query := "DELETE FROM t WHERE id = 9",
                            deletedRows := some [] },
      affected_rows := 0, description := "d" }
    { type := "DELETE", sql_query := "DELETE FROM t WHERE id = 9", deletedRows := some [] }
    (by decide) rfl (Or.inr (Or.inl ⟨rfl, rfl⟩))).1
  rw [h]
  decide

/-- C9: when the inverse action completes without error, exactly one new
record is appended — the ROLLBACK marker — whose SQL text and description
reference the original version id and whose backup payload is null (so
the rollback is auditable but not itself reversible). -/
theorem C9_rollback_marker (env : RollbackEnv) (ledger : List VersionRecord)
    (vid : Nat) (vi : VersionRecord) (b : Backup) (issued : List Stmt)
    (hf : ledger.find? (fun r => r.id = vid) = some vi)
    (hb : vi.backup_data = some b)
    (hrun : runStmts env.conn 0 (inverseActions env.dateFmt vi b).1 = (issued, none)) :
    handleRollbackToVersion env ledger vid =
      ⟨"Rollback successful!\n" ++ (inverseActions env.dateFmt vi b).2, false, issued,
       ledger ++ [rollbackMarker env vid vi]⟩ ∧
    (rollbackMarker env vid vi).operation_type = "ROLLBACK" ∧
    (rollbackMarker env vid vi).backup_data = none ∧
    (rollbackMarker env vid vi).sql_query = "ROLLBACK TO VERSION " ++ toString vid ∧
    (rollbackMarker env vid vi).description = "Rollback to version " ++ toString vid ∧
    strContains (rollbackMarker env vid vi).sql_query (toString vid) = true ∧
    strContains (rollbackMarker env vid vi).description (toString vid) = true := by
  refine ⟨?_, rfl, rfl, rfl, rfl, ?_, ?_⟩
  · simp [handleRollbackToVersion, hf, hb, hrun]
  · exact strContains_append_right "ROLLBACK TO VERSION " (toString vid)
  · exact strContains_append_right "Rollback to version " (toString vid)

theorem C9_witness :
    handleRollbackToVersion
      ⟨fun _ => .ok (.result 0 0), fun s => s, ⟨2025, 1, 1, 0, 0, 0, 0⟩, 7, 9, "s"⟩
      [{ id := 2, session_id := "s", timestamp := "ts", operation_type := "CREATE_TABLE",
         target_table := some "t", sql_query := "CREATE TABLE t (id INT)",
         backup_data := some { type := "CREATE_TABLE", sql_query := "CREATE TABLE t (id INT)",
                               tableName := some "t",
                               createQuery := some "CREATE TABLE t (id INT)" },
         affected_rows := 0, description := "d" }] 2 =
      ⟨"Rollback successful!\nDropped table 't' (rollback CREATE TABLE)", false,
       [⟨"DROP TABLE IF EXISTS t", []⟩],
       [{ id := 2, session_id := "s", timestamp := "ts", operation_type := "CREATE_TABLE",
          target_table := some "t", sql_query := "CREATE TABLE t (id INT)",
          backup_data := some { type := "CREATE_TABLE", sql_query := "CREATE TABLE t (id INT)",
                                tableName := some "t",
                                createQuery := some "CREATE TABLE t (id INT)" },
          affected_rows := 0, description := "d" },
        { id := 9, session_id := "s", timestamp := mkTimestamp ⟨2025, 1, 1, 0, 0, 0, 0⟩ 7,
          operation_type := "ROLLBACK", target_table := some "t",
          sql_query := "ROLLBACK TO VERSION 2", backup_data := none,
          affected_rows := 0, description := "Rollback to version 2" }]⟩ := by
  have h := (C9_rollback_marker
    ⟨fun _ => .ok (.result 0 0), fun s => s, ⟨2025, 1, 1, 0, 0, 0, 0⟩, 7, 9, "s"⟩
    [{ id := 2, session_id := "s", timestamp := "ts", operation_type := "CREATE_TABLE",
       target_table := some "t", sql_query := "CREATE TABLE t (id INT)",
       backup_data := some { type := "CREATE_TABLE", sql_query := "CREATE TABLE t (id INT)",
                             tableName := some "t",
                             createQuery := some "CREATE TABLE t (id INT)" },
       affected_rows := 0, description := "d" }] 2
    { id := 2, session_id := "s", timestamp := "ts", operation_type := "CREATE_TABLE",
      target_table := some "t", sql_query := "CREATE TABLE t (id INT)",
      backup_data := some { type := "CREATE_TABLE", sql_query := "CREATE TABLE t (id INT)",
                            tableName := some "t",
                            createQuery := some "CREATE TABLE t (id INT)" },
      affected_rows := 0, description := "d" }
    { type := "CREATE_TABLE", sql_query := "CREATE TABLE t (id INT)",
      tableName := some "t", createQuery := some "CREATE TABLE t (id INT)" }
    [⟨"DROP TABLE IF EXISTS t", []⟩]
    (by decide) rfl (by decide)).1
  rw [h]
  decide

/-- Running statements against an executor that answers the first `k`
calls successfully and raises `e` on call `k` issues exactly the first
`k + 1` statements (the failing one included) and surfaces `e`. -/
theorem runStmts_fail (conn : Nat → Except String ExecResult) (e : String) :
    ∀ (stmts : List Stmt) (i k : Nat),
      (∀ j, j < k → ∃ r, conn (i + j) = .ok r) →
      conn (i + k) = .error e → k < stmts.length →
      runStmts conn i stmts = (stmts.take (k + 1), some e) := by
  intro stmts
  induction stmts with
  | nil =>
    intro i k hok herr hk
    simp at hk
  | cons s rest ih =>
    intro i k hok herr hk
    cases k with
    | zero =>
      have hce : conn i = .error e := by simpa using herr
      simp [runStmts, hce]
    | succ k =>
      obtain ⟨r, hr⟩ := hok 0 (Nat.succ_pos k)
      have hri : conn i = .ok r := by simpa using hr
      have ih2 := ih (i + 1) k
        (fun j hj => by
          obtain ⟨r2, hr2⟩ := hok (j + 1) (Nat.succ_lt_succ hj)
          exact ⟨r2, by rwa [show i + (j + 1) = i + 1 + j by omega] at hr2⟩)
        (by rwa [show i + (k + 1) = i + 1 + k by omega] at herr)
        (by simpa using hk)
      simp [runStmts, hri, ih2]

/-- C2 (counterexample): a DELETE-record rollback over two backed-up rows
returns the *identical* response text whether the failure strikes before
any row was restored (zero succeeded) or after the first row was already
re-inserted (one succeeded): `Rollback failed: boom` in both runs.  The
response therefore carries no succeeded-versus-attempted counts. -/
theorem C2_counterexample :
    (handleRollbackToVersion
      ⟨fun i => if i = 0 then .error "boom" else .ok (.result 1 0), fun s => s,
       ⟨2025, 1, 1, 0, 0, 0, 0⟩, 0, 5, "s"⟩
      [{ id := 1, session_id := "s", timestamp := "ts", operation_type := "DELETE",
         target_table := some "t", sql_query := "DELETE FROM t",
         backup_data := some { type := "DELETE", sql_query := "DELETE FROM t",
                               deletedRows := some [[("id", Value.vInt 1)], [("id", Value.vInt 2)]] },
         affected_rows := 2, description := "d" }] 1).response = "Rollback failed: boom" ∧
    (handleRollbackToVersion
      ⟨fun i => if i = 0 then .ok (.result 1 0) else .error "boom", fun s => s,
       ⟨2025, 1, 1, 0, 0, 0, 0⟩, 0, 5, "s"⟩
      [{ id := 1, session_id := "s", timestamp := "ts", operation_type := "DELETE",
         target_table := some "t", sql_query := "DELETE FROM t",
         backup_data := some { type := "DELETE", sql_query := "DELETE FROM t",
                               deletedRows := some [[("id", Value.vInt 1)], [("id", Value.vInt 2)]] },
         affected_rows := 2, description := "d" }] 1).response = "Rollback failed: boom" ∧
    (handleRollbackToVersion
      ⟨fun i => if i = 0 then .error "boom" else .ok (.result 1 0), fun s => s,
       ⟨2025, 1, 1, 0, 0, 0, 0⟩, 0, 5, "s"⟩
      [{ id := 1, session_id := "s", timestamp := "ts", operation_type := "DELETE",
         target_table := some "t", sql_query := "DELETE FROM t",
         backup_data := some { type := "DELETE", sql_query := "DELETE FROM t",
                               deletedRows := some [[("id", Value.vInt 1)], [("id", Value.vInt 2)]] },
         affected_rows := 2, description := "d" }] 1).issued.length = 1 ∧
    (handleRollbackToVersion
      ⟨fun i => if i = 0 then .ok (.result 1 0) else .error "boom", fun s => s,
       ⟨2025, 1, 1, 0, 0, 0, 0⟩, 0, 5, "s"⟩
      [{ id := 1, session_id := "s", timestamp := "ts", operation_type := "DELETE",
         target_table := some "t", sql_query := "DELETE FROM t",
         backup_data := some { type := "DELETE", sql_query := "DELETE FROM t",
                               deletedRows := some [[("id", Value.vInt 1)], [("id", Value.vInt 2)]] },
         affected_rows := 2, description := "d" }] 1).issued.length = 2 := by
  refine ⟨by decide, by decide, by decide, by decide⟩

/-- C2 (amended): a failure during the per-row inverse statements of any
multi-statement rollback branch — DELETE re-insertion, UPDATE
restoration, or DROP_TABLE table reload — aborts the loop at the failing
statement: the statements already executed stay applied, the call
returns the single failure message `Rollback failed: <error>` with no
marker appended, and the response carries no partial-success counts (it
does not depend on how many statements had succeeded); only the
issued-statement trace reflects them. -/
theorem C2_amended_failfast (env : RollbackEnv) (ledger : List VersionRecord)
    (vid : Nat) (vi : VersionRecord) (b : Backup) (t : String)
    (k : Nat) (e : String)
    (hf : ledger.find? (fun r => r.id = vid) = some vi)
    (hb : vi.backup_data = some b)
    (ht : vi.target_table = some t)
    (hok : ∀ j, j < k → ∃ r, env.conn j = .ok r)
    (herr : env.conn k = .error e)
    (hcase :
      (∃ rows, vi.operation_type = "DELETE" ∧ b.deletedRows = some rows ∧
        k < rows.length) ∨
      (∃ rows, vi.operation_type = "UPDATE" ∧ b.originalRows = some rows ∧
        k < (rows.filterMap (updateRowStmt env.dateFmt t)).length) ∨
      (∃ st rows, vi.operation_type = "DROP_TABLE" ∧ b.structure_ = some st ∧
        b.data = some rows ∧ k < rows.length + 1)) :
    handleRollbackToVersion env ledger vid =
      ⟨"Rollback failed: " ++ e, true,
       ((inverseActions env.dateFmt vi b).1).take (k + 1), ledger⟩ ∧
    (∀ rows, vi.operation_type = "DELETE" → b.deletedRows = some rows → rows ≠ [] →
      (inverseActions env.dateFmt vi b).1 = rows.map (insertRowStmt env.dateFmt t)) ∧
    (∀ rows, vi.operation_type = "UPDATE" → b.originalRows = some rows → rows ≠ [] →
      (inverseActions env.dateFmt vi b).1 = rows.filterMap (updateRowStmt env.dateFmt t)) ∧
    (∀ st rows, vi.operation_type = "DROP_TABLE" → b.structure_ = some st →
      b.data = some rows →
      (inverseActions env.dateFmt vi b).1 =
        ⟨createStmtText (st.lookup "Create Table"), []⟩ ::
          rows.map (insertRowStmt env.dateFmt t)) := by
  have hdel : ∀ rows, vi.operation_type = "DELETE" → b.deletedRows = some rows → rows ≠ [] →
      (inverseActions env.dateFmt vi b).1 = rows.map (insertRowStmt env.dateFmt t) := by
    intro rows hop hrows hne
    have hlen : rows.length > 0 := List.length_pos.mpr hne
    simp [inverseActions, hop, ht, hrows, hlen, tmplOpt]
  have hupd : ∀ rows, vi.operation_type = "UPDATE" → b.originalRows = some rows → rows ≠ [] →
      (inverseActions env.dateFmt vi b).1 = rows.filterMap (updateRowStmt env.dateFmt t) := by
    intro rows hop hrows hne
    have hlen : rows.length > 0 := List.length_pos.mpr hne
    simp [inverseActions, hop, ht, hrows, hlen, tmplOpt]
  have hdrop : ∀ st rows, vi.operation_type = "DROP_TABLE" → b.structure_ = some st →
      b.data = some rows →
      (inverseActions env.dateFmt vi b).1 =
        ⟨createStmtText (st.lookup "Create Table"), []⟩ ::
          rows.map (insertRowStmt env.dateFmt t) := by
    intro st rows hop hst hdata
    simp [inverseActions, hop, ht, hst, hdata, tmplOpt]
  have hmain : k < ((inverseActions env.dateFmt vi b).1).length →
      handleRollbackToVersion env ledger vid =
        ⟨"Rollback failed: " ++ e, true,
         ((inverseActions env.dateFmt vi b).1).take (k + 1), ledger⟩ := by
    intro hklen
    obtain ⟨stmts, msg, hinv⟩ : ∃ stmts msg, inverseActions env.dateFmt vi b = (stmts, msg) :=
      ⟨(inverseActions env.dateFmt vi b).1, (inverseActions env.dateFmt vi b).2, rfl⟩
    rw [hinv] at hklen
    have hrun := runStmts_fail env.conn e stmts 0 k
      (fun j hj => by simpa using hok j hj)
      (by simpa using herr)
      (by simpa using hklen)
    rw [hinv]
    simp [handleRollbackToVersion, hf, hb, hinv, hrun]
  refine ⟨?_, hdel, hupd, hdrop⟩
  rcases hcase with ⟨rows, hop, hrows, hk⟩ | ⟨rows, hop, hrows, hk⟩ |
    ⟨st, rows, hop, hst, hdata, hk⟩
  · have hne : rows ≠ [] := List.length_pos.mp (Nat.lt_of_le_of_lt (Nat.zero_le k) hk)
    apply hmain
    rw [hdel rows hop hrows hne]
    simpa using hk
  · have hne : rows ≠ [] := by
      intro hnil
      rw [hnil] at hk
      simp at hk
    apply hmain
    rw [hupd rows hop hrows hne]
    exact hk
  · apply hmain
    rw [hdrop st rows hop hst hdata]
    simpa using hk

theorem C2_witness :
    handleRollbackToVersion
      ⟨fun i => if i = 0 then .ok (.result 1 0) else .error "boom", fun s => s,
       ⟨2025, 1, 1, 0, 0, 0, 0⟩, 0, 5, "s"⟩
      [{ id := 1, session_id := "s", timestamp := "ts", operation_type := "DELETE",
         target_table := some "t", sql_query := "DELETE FROM t",
         backup_data := some { type := "DELETE", sql_query := "DELETE FROM t",
                               deletedRows := some [[("id", Value.vInt 1)], [("id", Value.vInt 2)]] },
         affected_rows := 2, description := "d" }] 1 =
      ⟨"Rollback failed: boom", true,
       [⟨"INSERT INTO t (id) VALUES (?)", [Value.vInt 1]⟩,
        ⟨"INSERT INTO t (id) VALUES (?)", [Value.vInt 2]⟩],
       [{ id := 1, session_id := "s", timestamp := "ts", operation_type := "DELETE",
          target_table := some "t", sql_query := "DELETE FROM t",
          backup_data := some { type := "DELETE", sql_query := "DELETE FROM t",
                                deletedRows := some [[("id", Value.vInt 1)], [("id", Value.vInt 2)]] },
          affected_rows := 2, description := "d" }]⟩ := by
  have h := C2_amended_failfast
    ⟨fun i => if i = 0 then .ok (.result 1 0) else .error "boom", fun s => s,
     ⟨2025, 1, 1, 0, 0, 0, 0⟩, 0, 5, "s"⟩
    [{ id := 1, session_id := "s", timestamp := "ts", operation_type := "DELETE",
       target_table := some "t", sql_query := "DELETE FROM t",
       backup_data := some { type := "DELETE", sql_query := "DELETE FROM t",
                             deletedRows := some [[("id", Value.vInt 1)], [("id", Value.vInt 2)]] },
       affected_rows := 2, description := "d" }] 1
    { id := 1, session_id := "s", timestamp := "ts", operation_type := "DELETE",
      target_table := some "t", sql_query := "DELETE FROM t",
      backup_data := some { type := "DELETE", sql_query := "DELETE FROM t",
                            deletedRows := some [[("id", Value.vInt 1)], [("id", Value.vInt 2)]] },
      affected_rows := 2, description := "d" }
    { type := "DELETE", sql_query := "DELETE FROM t",
      deletedRows := some [[("id", Value.vInt 1)], [("id", Value.vInt 2)]] }
    "t" 1 "boom"
    (by decide) rfl rfl
    (fun j hj => by
      interval_cases j
      exact ⟨.result 1 0, rfl⟩)
    rfl
    (Or.inl ⟨[[("id", Value.vInt 1)], [("id", Value.vInt 2)]], rfl, rfl, by decide⟩)
  rw [h.1]
  decide

/-- Shape of a `handleQuery` run on the pre-execution backup path
(DELETE / UPDATE / DROP_TABLE with a determinable table): whatever the
executor answers, the statements issued are the backup's statements
followed by the main statement, and the logs are the backup's logs plus
the `Backup failed` line exactly when the capture raised. -/
theorem handleQuery_write_shape (env : QueryEnv) (ledger : List VersionRecord)
    (query t op : String)
    (hperm : checkQueryPermissions env.perms query = .ok ())
    (hop : classifyOperation query = some op)
    (hkind : op = "DELETE" ∨ op = "UPDATE" ∨ op = "DROP_TABLE") :
    (handleQuery env ledger query (some t)).issued =
      (createBackup env.perms env.sessionId env.now env.hrns env.conn 0 env.nextId
        op query (some t) none true ledger).issued ++ [⟨query, []⟩] ∧
    (handleQuery env ledger query (some t)).logs =
      (createBackup env.perms env.sessionId env.now env.hrns env.conn 0 env.nextId
        op query (some t) none true ledger).logs ++
        (match (createBackup env.perms env.sessionId env.now env.hrns env.conn 0 env.nextId
            op query (some t) none true ledger).ret with
         | .error e => ["Backup failed: " ++ e]
         | .ok _ => []) := by
  rcases hkind with rfl | rfl | rfl <;>
  · simp only [handleQuery, hperm, hop]
    refine ⟨?_, ?_⟩ <;> split <;>
      first
        | rfl
        | (rename_i res heq; cases res <;> rfl)

/-- C1: on the write path, a DELETE/UPDATE/DROP_TABLE statement with a
determinable target table always has its main SQL statement issued
against the executor — whatever the snapshot capture does — and when
`createBackup` raises, the error is logged as `Backup failed` while the
write still proceeds; the capture failure never prevents the primary
write. -/
theorem C1_capture_failure_nonblocking (env : QueryEnv) (ledger : List VersionRecord)
    (query t op : String)
    (hperm : checkQueryPermissions env.perms query = .ok ())
    (hop : classifyOperation query = some op)
    (hkind : op = "DELETE" ∨ op = "UPDATE" ∨ op = "DROP_TABLE") :
    (⟨query, []⟩ : Stmt) ∈ (handleQuery env ledger query (some t)).issued ∧
    (∀ e, (createBackup env.perms env.sessionId env.now env.hrns env.conn 0 env.nextId
        op query (some t) none true ledger).ret = .error e →
      ("Backup failed: " ++ e) ∈ (handleQuery env ledger query (some t)).logs) := by
  obtain ⟨hiss, hlogs⟩ := handleQuery_write_shape env ledger query t op hperm hop hkind
  constructor
  · rw [hiss]
    simp
  · intro e herr
    rw [hlogs, herr]
    simp

theorem C1_witness :
    (⟨"DELETE FROM users WHERE id = 1", []⟩ : Stmt) ∈
      (handleQuery
        ⟨⟨true, true, true⟩, "s", ⟨2025, 1, 1, 0, 0, 0, 0⟩, 0,
         fun i => if i = 0 then .error "boom" else .ok (.result 1 0), 1⟩
        [] "DELETE FROM users WHERE id = 1" (some "users")).issued ∧
    "Backup failed: boom" ∈
      (handleQuery
        ⟨⟨true, true, true⟩, "s", ⟨2025, 1, 1, 0, 0, 0, 0⟩, 0,
         fun i => if i = 0 then .error "boom" else .ok (.result 1 0), 1⟩
        [] "DELETE FROM users WHERE id = 1" (some "users")).logs := by
  have h := C1_capture_failure_nonblocking
    ⟨⟨true, true, true⟩, "s", ⟨2025, 1, 1, 0, 0, 0, 0⟩, 0,
     fun i => if i = 0 then .error "boom" else .ok (.result 1 0), 1⟩
    [] "DELETE FROM users WHERE id = 1" "users" "DELETE"
    (by decide) (by decide) (Or.inl rfl)
  exact ⟨h.1, h.2 "boom" (by decide)⟩
